import Mathlib

/-!
Verification development for the retrieval-augmented chat server in
`src/index.js`: the conversational pipeline (`/api/chat`), the document
ingestion pipeline (`/api/load-documents`), the in-memory conversation
store, and the helper functions `formatConvHistory` and `combineDocuments`.
Functions are shallowly embedded; the external collaborators (the language
model, the retriever, the text splitter) are parameters of the embedded
pipelines, mirroring their opaque-service role.
-/

/-- JavaScript `Array.prototype.join(sep)`: elements concatenated with the
separator between consecutive elements, empty string on the empty array. -/
def jsJoin (sep : String) : List String → String
  | [] => ""
  | [x] => x
  | x :: y :: ys => x ++ sep ++ jsJoin sep (y :: ys)

/-- Source line 22: `const formatConvHistory = (messages) => messages.join('\n')`. -/
def formatConvHistory (messages : List String) : String :=
  jsJoin "\n" messages

/-- A LangChain document: `pageContent` plus its `metadata.source` URL. -/
structure Document where
  pageContent : String
  source : String
deriving DecidableEq

/-- Source lines 147-150: `docs.map((doc) => doc.pageContent).join('\n\n')`. -/
def combineDocuments (docs : List Document) : String :=
  jsJoin "\n\n" (docs.map (fun doc => doc.pageContent))

/-- Source line 45: the standalone-question prompt template. -/
def standAloneQuestionTemplate : String :=
  "Given a conversation history (if any) and a question, convert it to a standalone question.\nConversation history: {conv_history}\nQuestion: {question} Standalone question:"

/-- Source line 47: the answer prompt template. -/
def answerTemplate : String :=
  "You are a helpful and enthusiastic support bot who can answer a given question about Scrimba based on the context provided and the conversation history. Try to find the answer in the context. If the answer is not given in the context, find the answer in the conversation history if possible. If you really don\x27t know the answer, say \x22I\x27m sorry, I don\x27t know the answer to that.\x22 And direct the questioner to email help@company.com. Don\x27t try to make up an answer. Always speak as if you were chatting to a friend.\nContext: {context}\nConversation history: {conv_history}\nQuestion: {question}\nAnswer: "

/-- Substitute one `PromptTemplate` variable: every occurrence of the
placeholder (the variable name in braces) is replaced by the value. -/
def substTemplateVar (tpl name value : String) : String :=
  String.intercalate value (tpl.splitOn ("\x7b" ++ name ++ "\x7d"))

/-- Render a `PromptTemplate`: substitute each bound variable in turn. -/
def renderTemplate (tpl : String) (vars : List (String × String)) : String :=
  vars.foldl (fun acc kv => substTemplateVar acc kv.1 kv.2) tpl

/-- The input object handed to `chain.invoke` (source lines 91-94). -/
structure ChainInput where
  question : String
  conv_history : String
deriving DecidableEq

/-- Output of the first step of the main chain (source lines 66-69):
the rewritten question alongside the passed-through original input. -/
structure Step1Output where
  standalone_question : String
  original_input : ChainInput
deriving DecidableEq

/-- The variable bindings handed to the answer prompt (source lines 70-74). -/
structure AnswerPromptInput where
  context : String
  question : String
  conv_history : String
deriving DecidableEq

/-- Source lines 57-62: `standaloneQuestionPrompt.pipe(llm).pipe(parser)`,
with the language model abstracted as a `String → String` function. -/
def standaloneQuestionChain (llm : String → String) (input : ChainInput) : String :=
  llm (renderTemplate standAloneQuestionTemplate
    [("conv_history", input.conv_history), ("question", input.question)])

/-- Source lines 51-55: `prevResult => prevResult.standalone_question`, then
the retriever, then `combineDocuments`. -/
def retrieverChain (retriever : String → List Document) (prevResult : Step1Output) : String :=
  combineDocuments (retriever prevResult.standalone_question)

/-- Source line 56: `answerPrompt.pipe(llm).pipe(parser)`. -/
def answerChain (llm : String → String) (input : AnswerPromptInput) : String :=
  llm (renderTemplate answerTemplate
    [("context", input.context), ("conv_history", input.conv_history),
     ("question", input.question)])

/-- Source lines 65-76: the main `RunnableSequence`. Step one computes the
standalone question and passes the original input through; step two binds
`context` from the retriever chain and `question` / `conv_history` from the
original input; step three is the answer chain. -/
def chain (retriever : String → List Document) (llm : String → String)
    (input : ChainInput) : String :=
  let step1 : Step1Output :=
    { standalone_question := standaloneQuestionChain llm input
      original_input := input }
  let step2 : AnswerPromptInput :=
    { context := retrieverChain retriever step1
      question := step1.original_input.question
      conv_history := step1.original_input.conv_history }
  answerChain llm step2

/-- The process-wide `userConvHistories` object (source line 19): a mapping
from user identity to its stored transcript array, `none` when absent. -/
abbrev ConvStore := String → Option (List String)

/-- The HTTP reply of the chat route: 200 with the response string, or the
uniform 500 Internal Server Error. -/
inductive ChatResponse where
  | ok (response : String)
  | internalError
deriving DecidableEq

/-- JavaScript string interpolation of a possibly-missing value:
an absent field prints as the string `undefined`. -/
def jsStr : Option String → String
  | some s => s
  | none => "undefined"

/-- Read a user transcript as the handler does (source line 85):
`userConvHistories[userId] || []`. -/
def getUserHistory (store : ConvStore) (userId : String) : List String :=
  (store userId).getD []

/-- Store a user transcript, as assignment into `userConvHistories`. -/
def setUserHistory (store : ConvStore) (userId : String) (history : List String) : ConvStore :=
  fun u => if u = userId then some history else store u

/-- Source lines 79-108, the `/api/chat` handler. `question` is the request
body field (possibly absent); `invokeChain` abstracts `chain.invoke`, taking
the question and the formatted history and either returning the answer or
throwing. JavaScript aliasing is modelled faithfully: when the user already
has a stored array, `convHistory.push(...)` mutates the stored array in
place, so the question entry lands in the store before `chain.invoke` runs;
the catch branch answers 500 and does not undo that mutation. -/
def chatHandler (store : ConvStore) (userId : String) (question : Option String)
    (invokeChain : String → String → Except String String) :
    ConvStore × ChatResponse :=
  let q := jsStr question
  let convHistory := getUserHistory store userId
  let pushedHistory := convHistory ++ ["Human: " ++ q]
  let storeAfterPush :=
    if (store userId).isSome then setUserHistory store userId pushedHistory else store
  match invokeChain q (formatConvHistory pushedHistory) with
  | Except.error _ => (storeAfterPush, ChatResponse.internalError)
  | Except.ok response =>
      (setUserHistory storeAfterPush userId (pushedHistory ++ ["AI: " ++ response]),
        ChatResponse.ok response)

/-- The options object passed to the html-to-text `compile` call:
`wordwrap` is a column width, or `none` when wrapping is disabled
(`wordwrap: false`). -/
structure HtmlToTextOptions where
  wordwrap : Option Nat
deriving DecidableEq

/-- Source line 116: the compile call with wordwrap set to 1000. -/
def compiledConvertOptions : HtmlToTextOptions :=
  { wordwrap := some 1000 }

/-- Modelled from the spec: word-wrapping effectively disabled means no hard
line-wrap width is imposed, i.e. the `wordwrap` option is not a number. -/
def wordWrapDisabled (opts : HtmlToTextOptions) : Prop :=
  opts.wordwrap = none

/-- A JSON field value, for embedding request and response bodies. -/
inductive JsonValue where
  | bool (b : Bool)
  | str (s : String)
  | num (n : Nat)
deriving DecidableEq

/-- The configuration of the `RecursiveUrlLoader` (source lines 119-122). -/
structure RecursiveUrlLoaderConfig where
  url : Option String
  maxDepth : Nat
deriving DecidableEq

/-- Source lines 113-122 of the `/api/load-documents` handler: the seed URL
is read from `req.body.url` and the loader is built with `maxDepth: 1000`;
no field of the body other than `url` is consulted. -/
def loadDocumentsLoaderConfig (body : List (String × JsonValue)) : RecursiveUrlLoaderConfig :=
  let u := match body.lookup "url" with
    | some (JsonValue.str s) => some s
    | _ => none
  { url := u, maxDepth := 1000 }

/-- `JSON.stringify` escaping of one character of a string value. -/
def jsonEscapeChar (c : Char) : String :=
  if c = '\x22' then "\\\x22"
  else if c = '\x5c' then "\\\\"
  else if c = '\n' then "\\n"
  else if c = '\r' then "\\r"
  else if c = '\t' then "\\t"
  else String.singleton c

/-- `JSON.stringify` escaping of a string value. -/
def jsonEscape (s : String) : String :=
  String.join (s.toList.map jsonEscapeChar)

/-- `JSON.stringify` of one loaded document. -/
def jsonStringifyDocument (d : Document) : String :=
  "\x7b\x22pageContent\x22:\x22" ++ jsonEscape d.pageContent ++
    "\x22,\x22metadata\x22:\x7b\x22source\x22:\x22" ++ jsonEscape d.source ++
    "\x22\x7d\x7d"

/-- `JSON.stringify(docs)` for the loaded document array (source line 131). -/
def jsonStringifyDocs (docs : List Document) : String :=
  "[" ++ jsJoin "," (docs.map jsonStringifyDocument) ++ "]"

/-- `splitter.createDocuments(texts)`: one chunking pass per input text,
with `split` abstracting the `RecursiveCharacterTextSplitter` itself. -/
def splitterCreateDocuments (split : String → List String) (texts : List String) :
    List String :=
  (texts.map split).flatten

/-- Source lines 125-139 of the `/api/load-documents` handler after loading:
the loaded documents are serialized into ONE string by `JSON.stringify`,
that single string is chunked, and the route answers with a body whose only
field is success set to true. Returns the chunks and the response body. -/
def loadDocumentsHandler (split : String → List String) (docs : List Document) :
    List String × List (String × JsonValue) :=
  let output := splitterCreateDocuments split [jsonStringifyDocs docs]
  (output, [("success", JsonValue.bool true)])

/-- Modelled from the spec: the Retrieval Stage concatenates the chunk texts
with a blank line between each, preserving their order, no deduplication. -/
def specContextJoin : List String → String
  | [] => ""
  | [t] => t
  | t :: u :: ts => t ++ "\n\n" ++ specContextJoin (u :: ts)

/-- Concrete store for the failure analysis: one user with a two-entry
transcript. -/
def cexStoreC1 : ConvStore :=
  fun u => if u = "203.0.113.7" then some ["Human: hi", "AI: hello"] else none

/-- Concrete store for the history-ordering analysis. -/
def cexStoreC2 : ConvStore :=
  fun u => if u = "198.51.100.4" then some ["Human: hi", "AI: hello"] else none

/-- A store with no transcripts at all. -/
def emptyConvStore : ConvStore := fun _ => none

theorem jsJoin_eq_specContextJoin (l : List String) :
    jsJoin "\n\n" l = specContextJoin l := by
  induction l with
  | nil => rfl
  | cons x xs ih =>
    cases xs with
    | nil => rfl
    | cons y ys =>
      simp only [jsJoin, specContextJoin]
      rw [ih]

/-- Claim C1: the claim says a failed chat request leaves the stored
conversation history unchanged for every prior transcript state. The code
violates this: `convHistory` aliases the stored array, so the question entry
pushed before `chain.invoke` persists when the chain throws. Evaluating the
handler at the failing input: the response is the 500 error, yet the stored
transcript has gained the question entry (and only it). -/
theorem chatFailureRecordsQuestion_C1 :
    (chatHandler cexStoreC1 "203.0.113.7" (some "What is the price?")
        (fun _ _ => Except.error "upstream failure")).2 = ChatResponse.internalError ∧
    getUserHistory (chatHandler cexStoreC1 "203.0.113.7" (some "What is the price?")
        (fun _ _ => Except.error "upstream failure")).1 "203.0.113.7"
      = ["Human: hi", "AI: hello", "Human: What is the price?"] ∧
    ¬ (getUserHistory (chatHandler cexStoreC1 "203.0.113.7" (some "What is the price?")
        (fun _ _ => Except.error "upstream failure")).1 "203.0.113.7"
      = getUserHistory cexStoreC1 "203.0.113.7") := by
  refine ⟨rfl, rfl, ?_⟩
  decide

/-- Claim C2, counterexample: with a prior two-entry transcript and the chain
stubbed to echo back the conversation-history string it receives, the echoed
string ends with the CURRENT question entry, so the history supplied to the
chain is not limited to previously completed request cycles. -/
theorem historySuppliedContainsCurrentQuestion_C2 :
    (chatHandler cexStoreC2 "198.51.100.4" (some "And the price?")
        (fun _ hist => Except.ok hist)).2
      = ChatResponse.ok "Human: hi\nAI: hello\nHuman: And the price?" ∧
    ¬ ((chatHandler cexStoreC2 "198.51.100.4" (some "And the price?")
        (fun _ hist => Except.ok hist)).2
      = ChatResponse.ok "Human: hi\nAI: hello") := by
  refine ⟨rfl, ?_⟩
  decide

/-- Claim C2, amended: the question entry is appended to the history BEFORE
the chain is invoked, so the conversation-history string supplied to query
rewriting and answer synthesis is the prior transcript followed by the
current question entry (the answer entry alone is appended afterwards). -/
theorem chatHistorySuppliedToChain_C2 (store : ConvStore) (userId q : String) :
    (chatHandler store userId (some q) (fun _ hist => Except.ok hist)).2
      = ChatResponse.ok (formatConvHistory (getUserHistory store userId ++ ["Human: " ++ q])) :=
  rfl

/-- Claim C3, counterexample: the html-to-text options in the source set
wordwrap to the number 1000, so word-wrapping is NOT disabled. -/
theorem normalizerImposesWrapWidth_C3 : ¬ wordWrapDisabled compiledConvertOptions := by
  simp [wordWrapDisabled, compiledConvertOptions]

/-- Claim C3, amended: the text normalization imposes a hard line-wrap width
of 1000 characters (wordwrap is the number 1000, not disabled). -/
theorem normalizerWrapWidthIs1000_C3 : compiledConvertOptions.wordwrap = some 1000 :=
  rfl

/-- Claim C4, counterexample: the success response of the ingestion route
carries no chunkCount field at all. -/
theorem loadDocumentsResponseLacksChunkCount_C4 :
    ((loadDocumentsHandler (fun s => [s]) []).2).lookup "chunkCount" = none := by
  decide

/-- Claim C4, amended: a successful ingestion responds with exactly the body
whose single field is success set to true; no chunk count is reported to the
caller for any splitter and any loaded documents. -/
theorem loadDocumentsResponseIsSuccessOnly_C4 (split : String → List String)
    (docs : List Document) :
    (loadDocumentsHandler split docs).2 = [("success", JsonValue.bool true)] ∧
    ((loadDocumentsHandler split docs).2).lookup "chunkCount" = none :=
  ⟨rfl, rfl⟩

/-- Claim C5: the chunker runs exactly one pass over the single string that
is the JSON serialization of the whole batch of loaded documents: the chunks
produced by the handler equal the splitter applied once to that string. -/
theorem chunkerInputIsSingleSerializedBatch_C5 (split : String → List String)
    (docs : List Document) :
    (loadDocumentsHandler split docs).1 = split (jsonStringifyDocs docs) := by
  simp [loadDocumentsHandler, splitterCreateDocuments]

/-- Claim C6: the main chain renders the answer prompt with the context
variable bound to the retrieved context for the rewritten question, the
conversation-history variable bound to the supplied formatted history, and
the question variable bound to the ORIGINAL question from the input, not to
the standalone rewritten question. -/
theorem answerPromptUsesOriginalQuestion_C6 (retriever : String → List Document)
    (llm : String → String) (input : ChainInput) :
    chain retriever llm input
      = llm (renderTemplate answerTemplate
          [("context", combineDocuments (retriever (standaloneQuestionChain llm input))),
           ("conv_history", input.conv_history),
           ("question", input.question)]) :=
  rfl

/-- Claim C7: the context string built by combineDocuments is the documents'
texts joined with exactly one blank line (two newlines) between consecutive
texts, in the order the retriever returned them, with no deduplication. -/
theorem combineDocumentsJoinsWithBlankLine_C7 (docs : List Document) :
    combineDocuments docs = specContextJoin (docs.map (fun d => d.pageContent)) := by
  unfold combineDocuments
  exact jsJoin_eq_specContextJoin (docs.map (fun d => d.pageContent))

/-- Claim C8: on a successful chat request the response is the chain answer
and the stored transcript becomes the prior entries, in their original
order, followed by exactly two new entries: the question entry first and the
answer entry second. -/
theorem chatSuccessAppendsQuestionThenAnswer_C8 (store : ConvStore) (userId q a : String) :
    (chatHandler store userId (some q) (fun _ _ => Except.ok a)).2 = ChatResponse.ok a ∧
    getUserHistory (chatHandler store userId (some q) (fun _ _ => Except.ok a)).1 userId
      = getUserHistory store userId ++ ["Human: " ++ q, "AI: " ++ a] := by
  refine ⟨rfl, ?_⟩
  simp [chatHandler, getUserHistory, setUserHistory, jsStr]

/-- Claim C9, counterexample: a chat request whose body lacks the question
field is NOT rejected with the 500 response before the pipeline: with the
chain stubbed to succeed, the route answers 200 with the chain output, and
the transcript records the literal string undefined as the question. -/
theorem missingQuestionStillProcessed_C9 :
    (chatHandler emptyConvStore "192.0.2.1" none
        (fun _ _ => Except.ok "the pipeline ran")).2
      = ChatResponse.ok "the pipeline ran" ∧
    getUserHistory (chatHandler emptyConvStore "192.0.2.1" none
        (fun _ _ => Except.ok "the pipeline ran")).1 "192.0.2.1"
      = ["Human: undefined", "AI: the pipeline ran"] :=
  ⟨rfl, rfl⟩

/-- Claim C9, amended: a missing question field is never validated or
classified; the handler behaves exactly as if the question were the literal
string undefined, proceeding through the full pipeline, and a 500 arises
only when a pipeline stage itself throws. -/
theorem missingQuestionTreatedAsUndefined_C9 (store : ConvStore) (userId : String)
    (invokeChain : String → String → Except String String) :
    chatHandler store userId none invokeChain
      = chatHandler store userId (some "undefined") invokeChain :=
  rfl

/-- Claim C10: the crawl depth bound of the document-loading route is the
fixed constant 1000, identical for every request body; a body cannot
configure it. -/
theorem crawlDepthIsFixedConstant_C10 (b₁ b₂ : List (String × JsonValue)) :
    (loadDocumentsLoaderConfig b₁).maxDepth = 1000 ∧
    (loadDocumentsLoaderConfig b₁).maxDepth = (loadDocumentsLoaderConfig b₂).maxDepth :=
  ⟨rfl, rfl⟩
